import Mathlib

/-!
Verification development for the Code Snippet Manager (src/main.py).

The program is a Tkinter GUI over a SQLite table `snippets(id INTEGER
PRIMARY KEY, title TEXT NOT NULL, code TEXT NOT NULL, language TEXT,
tags TEXT, description TEXT)`.  We embed the data model, the store
operations (`add_snippet`, `get_all_snippets`, the inline DELETE), the
dead highlighting helper, and the three GUI handlers (`load_snippets`,
`show_snippet_details`, `add_new_snippet`, `delete_snippet`) as pure
Lean functions.

Modelling conventions:
- A Python string-or-None value is `Option String`; SQL NULL is `none`.
- A raised exception that escapes a function is `Except.error`.
- SQLite semantics follow its documentation: a column declared
  `INTEGER PRIMARY KEY` is the rowid, and an INSERT that omits it
  assigns one more than the largest rowid currently in the table
  (1 for an empty table); a NOT NULL constraint rejects NULL only
  (the empty string is a legal TEXT value); `SELECT *` returns rows
  in rowid order.
- Blocking dialogs are modelled by passing their answers in as
  arguments; dialogs opened by a handler appear in its result.
-/

/-- The in-memory value object of src/main.py lines 10-26: fields exactly
as assigned by `Snippet.__init__`, each holding a Python string or None. -/
structure Snippet where
  title : Option String
  code : Option String
  language : Option String
  tags : Option String
  description : Option String
  id : Option Nat
deriving Repr, DecidableEq

/-- The five-positional-argument constructor call `Snippet(title, code,
language, tags, description)` used at line 176: `id` defaults to None.
The constructor performs no validation; it stores the fields verbatim. -/
def Snippet.make (title code language tags description : Option String) : Snippet :=
  ⟨title, code, language, tags, description, none⟩

/-- `Snippet.to_tuple` (lines 21-23): the five non-id fields, in the
column order of the INSERT statement. -/
def Snippet.to_tuple (s : Snippet) :
    Option String × Option String × Option String × Option String × Option String :=
  (s.title, s.code, s.language, s.tags, s.description)

/-- One row of the `snippets` table (schema of `create_table`, lines
37-49): `id` is the INTEGER PRIMARY KEY (rowid), `title` and `code` are
NOT NULL so they hold real strings, the other three columns may be NULL. -/
structure Row where
  id : Nat
  title : String
  code : String
  language : Option String
  tags : Option String
  description : Option String
deriving Repr, DecidableEq

/-- The table contents, in rowid order (ascending id).  `add_snippet`
below always assigns an id larger than every stored id, so appending
keeps the list in rowid order. -/
abbrev Table := List Row

/-- Largest rowid currently in the table, 0 when empty. -/
def maxId (rows : Table) : Nat :=
  rows.foldr (fun r acc => max r.id acc) 0

/-- `SnippetDatabase.add_snippet` (lines 51-55): INSERT of
`snippet.to_tuple()` with the id column omitted.  SQLite assigns the new
rowid as one more than the largest rowid in use; the NOT NULL
constraints on title and code make the INSERT raise IntegrityError when
either value is None (NULL), and in that case no row is persisted.  The
empty string satisfies NOT NULL and is inserted like any other text. -/
def add_snippet (rows : Table) (s : Snippet) : Except String Table :=
  match s.title, s.code with
  | some t, some c =>
      .ok (rows ++ [⟨maxId rows + 1, t, c, s.language, s.tags, s.description⟩])
  | _, _ => .error "IntegrityError: NOT NULL constraint failed"

/-- `SnippetDatabase.get_all_snippets` (lines 57-62): `SELECT *` in
rowid order, each row rebuilt as a fresh Snippet with its id set. -/
def get_all_snippets (rows : Table) : List Snippet :=
  rows.map (fun r => ⟨some r.title, some r.code, r.language, r.tags, r.description, some r.id⟩)

/-- The inline `DELETE FROM snippets WHERE id=?` of `delete_snippet`
(line 188).  The parameter is `snippet.id`, a Python value that could be
None; `id = NULL` matches no row in SQL, so a None id deletes nothing.
Deleting an id that is not present is a silent no-op. -/
def delete_by_id (rows : Table) (oid : Option Nat) : Table :=
  rows.filter (fun r => decide (oid ≠ some r.id))

/-- Python `str.upper()` restricted to the basic latin letters the
program uses: each character uppercased in place. -/
def pyUpper (s : String) : String :=
  ⟨s.data.map Char.toUpper⟩

/-- Python str() of a string-or-None value, as an f-string renders it. -/
def pyStr (o : Option String) : String :=
  match o with
  | none => "None"
  | some s => s

/-- Environment model of the pygments lexer registry consulted by
`get_lexer_by_name`: a fixed set of registered names that always
contains the plain-text lexer `"text"` (pygments guarantees the
TextLexer is available). -/
def knownLexerNames : List String :=
  ["text", "python", "html", "javascript", "c", "java"]

/-- Environment model of `pygments.lexers.get_lexer_by_name` (a lexer is
represented by its name): raises ClassNotFound for an unregistered
name. -/
def get_lexer_by_name (name : String) : Except String String :=
  if name ∈ knownLexerNames then .ok name else .error "ClassNotFound"

/-- Environment model of `pygments.highlight` with the HtmlFormatter of
line 85: produces the HTML markup for the code under the given lexer. -/
def pygmentsHighlight (code lexer : String) : String :=
  "<div class=\x22highlight " ++ lexer ++ "\x22><pre>" ++ code ++ "</pre></div>"

/-- `highlight_code_html` (lines 70-87).  `guessLexer` stands for
`pygments.lexers.guess_lexer`, a content-based lookup that may raise;
it is left abstract as a parameter.  The try/except chain: named
lookup; on failure, guess from the code; on failure again, the
plain-text lexer.  The last lookup sits outside any try, so if it
raised, the exception would escape. -/
def highlight_code_html (guessLexer : String → Except String String)
    (code language : String) : Except String String :=
  match get_lexer_by_name language with
  | .ok lexer => .ok (pygmentsHighlight code lexer)
  | .error _ =>
    match guessLexer code with
    | .ok lexer => .ok (pygmentsHighlight code lexer)
    | .error _ =>
      match get_lexer_by_name "text" with
      | .ok lexer => .ok (pygmentsHighlight code lexer)
      | .error e => .error e

/-- The GUI state the handlers touch: the in-memory snippet list
`self.snippets`, the listbox entries, and the text of the detail pane. -/
structure AppState where
  snippets : List Snippet
  listbox : List String
  detail : String
deriving Repr, DecidableEq

/-- The listbox label built at line 138: `f"[{language.upper()}] {title}"`.
`language.upper()` raises AttributeError when the language is None; a
None title would render as the text "None". -/
def snippetLabel (s : Snippet) : Except String String :=
  match s.language with
  | some lang => .ok ("[" ++ pyUpper lang ++ "] " ++ pyStr s.title)
  | none => .error "AttributeError: NoneType has no attribute upper"

/-- The label-building loop of `load_snippets`: labels in list order,
propagating the first failure. -/
def buildLabels : List Snippet → Except String (List String)
  | [] => .ok []
  | s :: rest =>
    match snippetLabel s with
    | .error e => .error e
    | .ok lab =>
      match buildLabels rest with
      | .error e => .error e
      | .ok labs => .ok (lab :: labs)

/-- `SnippetManagerApp.load_snippets` (lines 133-138): replace the
in-memory list with `get_all_snippets`, clear the listbox, and insert
one label per snippet, in order.  The detail pane is not touched. -/
def load_snippets (rows : Table) (detailPane : String) : Except String AppState :=
  match buildLabels (get_all_snippets rows) with
  | .error e => .error e
  | .ok labels => .ok ⟨get_all_snippets rows, labels, detailPane⟩

/-- The detail block built at line 153. -/
def detailText (s : Snippet) : String :=
  "Title: " ++ pyStr s.title ++ "\nLanguage: " ++ pyStr s.language ++
  "\nTags: " ++ pyStr s.tags ++ "\nDescription:\n" ++ pyStr s.description ++
  "\n\n--- CODE ---\n" ++ pyStr s.code

/-- `SnippetManagerApp.show_snippet_details` (lines 140-159).  The
selection is `curselection()`, a list of selected indices; an empty
selection makes `curselection()[0]` raise IndexError, which the handler
catches and ignores (`pass`).  An index beyond `self.snippets` would
raise IndexError at the same try and is ignored the same way.  The
second component of the result is the modal dialog the handler opens:
this handler opens none on any path. -/
def show_snippet_details (st : AppState) (selection : List Nat) :
    AppState × Option String :=
  match selection with
  | [] => (st, none)
  | i :: _ =>
    match st.snippets[i]? with
    | none => (st, none)
    | some s => (⟨st.snippets, st.listbox, detailText s⟩, none)

/-- The answers the five `askstring` dialogs of `add_new_snippet` would
return: None models a cancelled dialog, an empty string a blank entry. -/
structure Prompts where
  title : Option String
  language : Option String
  code : Option String
  tags : Option String
  description : Option String
deriving Repr, DecidableEq

/-- Python falsiness of a string-or-None dialog answer: None and the
empty string are falsy, everything else (whitespace included) is truthy. -/
def falsy (o : Option String) : Bool :=
  match o with
  | none => true
  | some s => s.isEmpty

/-- The `initialvalue` pre-filled in the language dialog (line 167). -/
def languagePromptInitialValue : String := "python"

/-- Line 168: `if not language: language = "text"` - a falsy language
answer is replaced by the plain string "text", any truthy answer is
kept as given. -/
def effectiveLanguage (resp : Option String) : Option String :=
  if falsy resp then some "text" else resp

/-- The observable outcome of one run of the add flow: the table, the
GUI state, and the success dialog (None when no dialog was shown). -/
structure AddOutcome where
  rows : Table
  state : AppState
  info : Option String
deriving Repr, DecidableEq

/-- `SnippetManagerApp.add_new_snippet` (lines 161-179): a falsy title
answer returns at once; the language fallback is applied; a falsy code
answer returns at once; otherwise the Snippet is built from the five
answers, inserted, the list reloaded, and the success dialog shown. -/
def add_new_snippet (rows : Table) (st : AppState) (p : Prompts) :
    Except String AddOutcome :=
  if falsy p.title then .ok ⟨rows, st, none⟩
  else
    let language := effectiveLanguage p.language
    if falsy p.code then .ok ⟨rows, st, none⟩
    else
      match add_snippet rows (Snippet.make p.title p.code language p.tags p.description) with
      | .error e => .error e
      | .ok rows2 =>
        match load_snippets rows2 st.detail with
        | .error e => .error e
        | .ok st2 =>
          .ok ⟨rows2, st2, some ("Snippet \x27" ++ pyStr p.title ++ "\x27 added successfully!")⟩

/-- The observable outcome of one run of the delete flow: the table, the
GUI state, the modal error dialog if one was shown, and whether the
confirmation question was asked. -/
structure DeleteOutcome where
  rows : Table
  state : AppState
  errDialog : Option String
  confirmAsked : Bool
deriving Repr, DecidableEq

/-- `SnippetManagerApp.delete_snippet` (lines 181-198): an empty
selection (or a stale index) raises IndexError, caught to show the
modal error; otherwise the confirmation is asked, and on yes the row
with the selected snippet id is deleted, the list reloaded, and the
detail pane cleared; on no, nothing changes. -/
def delete_snippet (rows : Table) (st : AppState) (selection : List Nat)
    (confirmAnswer : Bool) : Except String DeleteOutcome :=
  match selection with
  | [] => .ok ⟨rows, st, some "Please select a snippet to delete.", false⟩
  | i :: _ =>
    match st.snippets[i]? with
    | none => .ok ⟨rows, st, some "Please select a snippet to delete.", false⟩
    | some s =>
      if confirmAnswer then
        match load_snippets (delete_by_id rows s.id) st.detail with
        | .error e => .error e
        | .ok st2 =>
          .ok ⟨delete_by_id rows s.id, ⟨st2.snippets, st2.listbox, ""⟩, none, true⟩
      else .ok ⟨rows, st, none, true⟩

/-! ## Helper lemmas -/

/-- Every stored id is bounded by `maxId`. -/
lemma mem_id_le_maxId {rows : Table} {r : Row} (hr : r ∈ rows) : r.id ≤ maxId rows := by
  induction rows with
  | nil => cases hr
  | cons a l ih =>
    rcases List.mem_cons.mp hr with h | h
    · subst h; exact le_max_left _ _
    · exact le_trans (ih h) (le_max_right _ _)

/-- A successful label build yields one label per snippet. -/
lemma buildLabels_length {l : List Snippet} {ls : List String}
    (h : buildLabels l = .ok ls) : ls.length = l.length := by
  induction l generalizing ls with
  | nil => simp [buildLabels] at h; subst h; rfl
  | cons a rest ih =>
    cases h1 : snippetLabel a with
    | error e => simp [buildLabels, h1] at h
    | ok lab =>
      cases h2 : buildLabels rest with
      | error e => simp [buildLabels, h1, h2] at h
      | ok labs =>
        simp [buildLabels, h1, h2] at h
        subst h
        simp [ih h2]

/-- A successful label build puts the label of the snippet at position i
at position i of the result. -/
lemma buildLabels_get {l : List Snippet} {ls : List String}
    (h : buildLabels l = .ok ls) (i : Nat) (s : Snippet) (hs : l[i]? = some s) :
    ∃ lab, ls[i]? = some lab ∧ snippetLabel s = .ok lab := by
  induction l generalizing ls i with
  | nil => simp at hs
  | cons a rest ih =>
    cases h1 : snippetLabel a with
    | error e => simp [buildLabels, h1] at h
    | ok lab =>
      cases h2 : buildLabels rest with
      | error e => simp [buildLabels, h1, h2] at h
      | ok labs =>
        simp [buildLabels, h1, h2] at h
        subst h
        cases i with
        | zero =>
          simp at hs
          subst hs
          exact ⟨lab, by simp, h1⟩
        | succ n =>
          simp at hs
          obtain ⟨lab2, hl, hsl⟩ := ih h2 n hs
          exact ⟨lab2, by simpa using hl, hsl⟩

/-- Shape of a successful run of the add flow with truthy title and code
answers: the new row is appended with the effective language and the raw
tags and description answers, and the success dialog is shown. -/
lemma add_new_snippet_success {rows : Table} {st : AppState} {p : Prompts}
    {out : AddOutcome} (ht : falsy p.title = false) (hc : falsy p.code = false)
    (h : add_new_snippet rows st p = .ok out) :
    ∃ t c, p.title = some t ∧ p.code = some c ∧
      out.rows = rows ++
        [⟨maxId rows + 1, t, c, effectiveLanguage p.language, p.tags, p.description⟩] ∧
      out.info.isSome = true := by
  rcases p with ⟨pt, pl, pc, ptg, pd⟩
  cases pt with
  | none => simp [falsy] at ht
  | some t =>
    cases pc with
    | none => simp [falsy] at hc
    | some c =>
      refine ⟨t, c, rfl, rfl, ?_⟩
      simp only [add_new_snippet, ht, hc, Bool.false_eq_true, if_false] at h
      simp only [Snippet.make, add_snippet] at h
      cases hl : load_snippets
          (rows ++ [⟨maxId rows + 1, t, c, effectiveLanguage pl, ptg, pd⟩]) st.detail with
      | error e => rw [hl] at h; cases h
      | ok st2 =>
        rw [hl] at h
        cases h
        simp

/-! ## Claim theorems -/

/-- C1: round-trip through the store.  For every snippet s with
non-empty title and code and no id, `add_snippet` succeeds and
`get_all_snippets` on the resulting table contains a record equal to s
in the title, code, language, tags, and description fields, with an
assigned (non-null) id. -/
theorem C1_add_roundtrip (rows : Table) (s : Snippet) (t c : String)
    (ht : s.title = some t) (htne : t ≠ "")
    (hc : s.code = some c) (hcne : c ≠ "")
    (hid : s.id = none) :
    ∃ rows2, add_snippet rows s = .ok rows2 ∧
      ∃ r ∈ get_all_snippets rows2,
        r.title = s.title ∧ r.code = s.code ∧ r.language = s.language ∧
        r.tags = s.tags ∧ r.description = s.description ∧ r.id.isSome = true := by
  refine ⟨rows ++ [⟨maxId rows + 1, t, c, s.language, s.tags, s.description⟩], ?_, ?_⟩
  · simp [add_snippet, ht, hc]
  · refine ⟨⟨some t, some c, s.language, s.tags, s.description, some (maxId rows + 1)⟩, ?_, ?_⟩
    · simp [get_all_snippets]
    · simp [ht, hc]

/-- Witness for C1 at the spec's own scenario snippet. -/
theorem C1_add_roundtrip_witness :
    ∃ rows2,
      add_snippet [] ⟨some "Hello", some "print(hi)", some "python", some "demo",
        some "greeting", none⟩ = .ok rows2 ∧
      ∃ r ∈ get_all_snippets rows2,
        r.title = some "Hello" ∧ r.code = some "print(hi)" ∧ r.language = some "python" ∧
        r.tags = some "demo" ∧ r.description = some "greeting" ∧ r.id.isSome = true :=
  C1_add_roundtrip [] ⟨some "Hello", some "print(hi)", some "python", some "demo",
    some "greeting", none⟩ "Hello" "print(hi)" rfl (by decide) rfl (by decide) rfl

/-- C2 counterexample: a snippet whose title is the empty string is NOT
rejected by the storage layer - the INSERT succeeds and the row is
persisted, because NOT NULL only rejects NULL, and the empty string is a
legal TEXT value. -/
theorem C2_counterexample :
    add_snippet [] ⟨some "", some "x", some "text", some "", some "", none⟩
      = .ok [⟨1, "", "x", some "text", some "", some ""⟩] := rfl

/-- C2 amended: the NOT NULL constraints on title and code reject
exactly a null (None) title or code - then the insert raises and no row
is persisted - while the entity constructor performs no validation and
stores its five arguments verbatim with a null id. -/
theorem C2_null_rejection (rows : Table) (s : Snippet)
    (h : s.title = none ∨ s.code = none) :
    (∃ e, add_snippet rows s = .error e) ∧
    ∀ t c l tg d, Snippet.make t c l tg d = ⟨t, c, l, tg, d, none⟩ := by
  refine ⟨?_, fun t c l tg d => rfl⟩
  rcases s with ⟨st, sc, sl, stg, sd, sid⟩
  rcases h with h | h
  · subst h
    exact ⟨_, rfl⟩
  · subst h
    cases st <;> exact ⟨_, rfl⟩

/-- Witness for C2 amended at a null-title snippet. -/
theorem C2_null_rejection_witness :
    (∃ e, add_snippet [] ⟨none, some "x", some "text", some "", some "", none⟩ = .error e) ∧
    ∀ t c l tg d, Snippet.make t c l tg d = ⟨t, c, l, tg, d, none⟩ :=
  C2_null_rejection [] ⟨none, some "x", some "text", some "", some "", none⟩ (Or.inl rfl)

/-- C3: a falsy (cancelled or empty) title or code answer aborts the
add flow with no side effect: the table is unchanged, the GUI state
(list included) is unchanged, and no confirmation dialog is shown;
blank title and blank code produce the identical outcome. -/
theorem C3_abort_no_side_effect (rows : Table) (st : AppState) (p : Prompts)
    (h : falsy p.title = true ∨ falsy p.code = true) :
    add_new_snippet rows st p = .ok ⟨rows, st, none⟩ := by
  by_cases ht : falsy p.title = true
  · simp [add_new_snippet, ht]
  · rcases h with h | h
    · exact absurd h ht
    · simp [add_new_snippet, ht, h]

/-- Witness for C3 at a cancelled title prompt. -/
theorem C3_abort_no_side_effect_witness :
    add_new_snippet [] ⟨[], [], ""⟩ ⟨none, some "python", some "x", none, none⟩
      = .ok ⟨[], ⟨[], [], ""⟩, none⟩ :=
  C3_abort_no_side_effect [] ⟨[], [], ""⟩ ⟨none, some "python", some "x", none, none⟩
    (Or.inl rfl)

/-- C4: deleting an id that is stored in no row removes nothing, raises
nothing, and leaves the result of a subsequent `get_all_snippets`
exactly as before. -/
theorem C4_delete_absent_noop (rows : Table) (i : Nat)
    (h : ∀ r ∈ rows, r.id ≠ i) :
    delete_by_id rows (some i) = rows ∧
    get_all_snippets (delete_by_id rows (some i)) = get_all_snippets rows := by
  have heq : delete_by_id rows (some i) = rows := by
    unfold delete_by_id
    apply List.filter_eq_self.mpr
    intro r hr
    simpa using Ne.symm (h r hr)
  exact ⟨heq, by rw [heq]⟩

/-- Witness for C4: deleting id 7 from a table holding only id 1. -/
theorem C4_delete_absent_noop_witness :
    delete_by_id [⟨1, "a", "x", some "text", none, none⟩] (some 7)
        = [⟨1, "a", "x", some "text", none, none⟩] ∧
    get_all_snippets (delete_by_id [⟨1, "a", "x", some "text", none, none⟩] (some 7))
        = get_all_snippets [⟨1, "a", "x", some "text", none, none⟩] :=
  C4_delete_absent_noop [⟨1, "a", "x", some "text", none, none⟩] 7 (by decide)

/-- C5 counterexample: ids are not assigned monotonically across delete
operations.  Insert two snippets (ids 1 and 2), delete id 2, insert a
third: the store assigns it id 2 again - equal to, not strictly greater
than, the id previously assigned to the second insert - because the
rowid of a table declared without AUTOINCREMENT is one more than the
largest rowid still present. -/
theorem C5_counterexample :
    add_snippet [] ⟨some "a", some "x", some "text", some "", some "", none⟩
      = .ok [⟨1, "a", "x", some "text", some "", some ""⟩] ∧
    add_snippet [⟨1, "a", "x", some "text", some "", some ""⟩]
        ⟨some "b", some "y", some "text", some "", some "", none⟩
      = .ok [⟨1, "a", "x", some "text", some "", some ""⟩,
             ⟨2, "b", "y", some "text", some "", some ""⟩] ∧
    delete_by_id [⟨1, "a", "x", some "text", some "", some ""⟩,
        ⟨2, "b", "y", some "text", some "", some ""⟩] (some 2)
      = [⟨1, "a", "x", some "text", some "", some ""⟩] ∧
    add_snippet [⟨1, "a", "x", some "text", some "", some ""⟩]
        ⟨some "c", some "z", some "text", some "", some "", none⟩
      = .ok [⟨1, "a", "x", some "text", some "", some ""⟩,
             ⟨2, "c", "z", some "text", some "", some ""⟩] ∧
    ¬ (2 : Nat) > 2 :=
  ⟨rfl, rfl, rfl, rfl, by decide⟩

/-- C5 amended: every successful insert appends one row whose id is one
more than the largest id currently stored, hence unique among - and
strictly greater than - the ids of all currently stored rows.
Monotonicity against ids assigned in the past does not hold once the row
holding the largest id has been deleted. -/
theorem C5_fresh_id_unique (rows : Table) (s : Snippet) (rows2 : Table)
    (h : add_snippet rows s = .ok rows2) :
    ∃ r2 : Row, rows2 = rows ++ [r2] ∧ r2.id = maxId rows + 1 ∧
      ∀ r ∈ rows, r.id < r2.id := by
  rcases s with ⟨st, sc, sl, stg, sd, sid⟩
  cases st with
  | none => cases h
  | some t =>
    cases sc with
    | none => cases h
    | some c =>
      simp only [add_snippet] at h
      cases h
      refine ⟨⟨maxId rows + 1, t, c, sl, stg, sd⟩, rfl, rfl, ?_⟩
      intro r hr
      exact Nat.lt_succ_of_le (mem_id_le_maxId hr)

/-- Witness for C5 amended: inserting into a one-row table assigns id 2,
fresh and larger than the stored id 1. -/
theorem C5_fresh_id_unique_witness :
    ∃ r2 : Row,
      [⟨1, "a", "x", some "text", none, none⟩, ⟨2, "b", "y", some "text", none, none⟩]
        = [⟨1, "a", "x", some "text", none, none⟩] ++ [r2] ∧
      r2.id = maxId [⟨1, "a", "x", some "text", none, none⟩] + 1 ∧
      ∀ r ∈ [(⟨1, "a", "x", some "text", none, none⟩ : Row)], r.id < r2.id :=
  C5_fresh_id_unique [⟨1, "a", "x", some "text", none, none⟩]
    ⟨some "b", some "y", some "text", none, none, none⟩
    [⟨1, "a", "x", some "text", none, none⟩, ⟨2, "b", "y", some "text", none, none⟩] rfl

/-- C6: after every successful refresh, the listbox and the in-memory
snippet list have the same length; the entry at each position i is the
label of the in-memory snippet at position i, namely "[LANGUAGE] Title"
with the language upper-cased; and selecting position i renders exactly
the in-memory snippet at position i in the detail pane, opening no
dialog. -/
theorem C6_refresh_alignment (rows : Table) (d : String) (st : AppState)
    (h : load_snippets rows d = .ok st) :
    st.listbox.length = st.snippets.length ∧
    ∀ (i : Nat) (s : Snippet), st.snippets[i]? = some s →
      (∀ lang t, s.language = some lang → s.title = some t →
        st.listbox[i]? = some ("[" ++ pyUpper lang ++ "] " ++ t)) ∧
      show_snippet_details st (i :: []) = (⟨st.snippets, st.listbox, detailText s⟩, none) := by
  cases hb : buildLabels (get_all_snippets rows) with
  | error e => simp [load_snippets, hb] at h
  | ok labels =>
    simp [load_snippets, hb] at h
    subst h
    refine ⟨buildLabels_length hb, ?_⟩
    intro i s hs
    obtain ⟨lab, hl, hsl⟩ := buildLabels_get hb i s hs
    constructor
    · intro lang t hlang htitle
      simp only [snippetLabel, hlang, htitle, pyStr] at hsl
      injection hsl with hsl
      show labels[i]? = some ("[" ++ pyUpper lang ++ "] " ++ t)
      rw [hl, ← hsl]
    · simp [show_snippet_details, hs]

/-- Witness for C6 at a one-row table holding the spec's scenario
snippet: the label is "[PYTHON] Hello" and lengths agree. -/
theorem C6_refresh_alignment_witness :
    ∃ st : AppState,
      load_snippets [⟨1, "Hello", "print", some "python", some "demo", some "greeting"⟩] ""
        = .ok st ∧
      st.listbox.length = st.snippets.length ∧
      st.listbox[0]? = some "[PYTHON] Hello" := by
  have hmain := C6_refresh_alignment
    [⟨1, "Hello", "print", some "python", some "demo", some "greeting"⟩] ""
    ⟨[⟨some "Hello", some "print", some "python", some "demo", some "greeting", some 1⟩],
     ["[PYTHON] Hello"], ""⟩ rfl
  exact ⟨_, rfl, hmain.1,
    (hmain.2 0 ⟨some "Hello", some "print", some "python", some "demo", some "greeting",
      some 1⟩ rfl).1 "python" "Hello" rfl rfl⟩

/-- C7: the language dialog is pre-filled with "python"; a falsy (blank
or cancelled) language answer makes the stored language the plain string
"text"; and for every truthy answer r the language stored in the new row
is r itself - the two fallbacks are independent. -/
theorem C7_language_default (rows : Table) (st : AppState) (p : Prompts)
    (out : AddOutcome)
    (ht : falsy p.title = false) (hc : falsy p.code = false)
    (h : add_new_snippet rows st p = .ok out) :
    languagePromptInitialValue = "python" ∧
    (∃ t c, p.title = some t ∧ p.code = some c ∧
      out.rows = rows ++
        [⟨maxId rows + 1, t, c, effectiveLanguage p.language, p.tags, p.description⟩]) ∧
    (∀ r : String, r ≠ "" → effectiveLanguage (some r) = some r) ∧
    (falsy p.language = true → effectiveLanguage p.language = some "text") := by
  obtain ⟨t, c, hpt, hpc, hrows, hinfo⟩ := add_new_snippet_success ht hc h
  refine ⟨rfl, ⟨t, c, hpt, hpc, hrows⟩, ?_, ?_⟩
  · intro r hr
    have hre : r.isEmpty = false := by
      cases hri : r.isEmpty with
      | false => rfl
      | true => exact absurd ((String.isEmpty_iff r).mp hri) hr
    simp [effectiveLanguage, falsy, hre]
  · intro hfl
    simp [effectiveLanguage, hfl]

/-- Witness for C7 at the truthy answer "ruby": the stored language is
"ruby" itself. -/
theorem C7_language_default_witness :
    languagePromptInitialValue = "python" ∧
    (∃ t c, (some "T" : Option String) = some t ∧ (some "x" : Option String) = some c ∧
      [⟨1, "T", "x", some "ruby", none, none⟩] = ([] : Table) ++
        [⟨maxId [] + 1, t, c, effectiveLanguage (some "ruby"), none, none⟩]) ∧
    (∀ r : String, r ≠ "" → effectiveLanguage (some r) = some r) ∧
    (falsy (some "ruby") = true → effectiveLanguage (some "ruby") = some "text") := by
  have := C7_language_default [] ⟨[], [], ""⟩ ⟨some "T", some "ruby", some "x", none, none⟩
    ⟨[⟨1, "T", "x", some "ruby", none, none⟩],
     ⟨[⟨some "T", some "x", some "ruby", none, none, some 1⟩], ["[RUBY] T"], ""⟩,
     some "Snippet \x27T\x27 added successfully!"⟩ rfl rfl rfl
  exact this

/-- C8: whatever the content-based guesser does, `highlight_code_html`
never propagates a failure: it always returns an HTML string, resolving
the lexer by named lookup first, then the guess, then the plain-text
lexer, in that order. -/
theorem C8_highlight_never_fails (guessLexer : String → Except String String)
    (code language : String) :
    (∃ html, highlight_code_html guessLexer code language = .ok html) ∧
    (∀ l, get_lexer_by_name language = .ok l →
      highlight_code_html guessLexer code language = .ok (pygmentsHighlight code l)) ∧
    (∀ e l, get_lexer_by_name language = .error e → guessLexer code = .ok l →
      highlight_code_html guessLexer code language = .ok (pygmentsHighlight code l)) ∧
    (∀ e e2, get_lexer_by_name language = .error e → guessLexer code = .error e2 →
      highlight_code_html guessLexer code language = .ok (pygmentsHighlight code "text")) := by
  refine ⟨?_, ?_, ?_, ?_⟩
  · cases h1 : get_lexer_by_name language with
    | ok l =>
      refine ⟨pygmentsHighlight code l, ?_⟩
      simp [highlight_code_html, h1]
    | error e =>
      cases h2 : guessLexer code with
      | ok l =>
        refine ⟨pygmentsHighlight code l, ?_⟩
        simp [highlight_code_html, h1, h2]
      | error e2 =>
        refine ⟨pygmentsHighlight code "text", ?_⟩
        simp [highlight_code_html, h1, h2]
        rfl
  · intro l h1
    simp [highlight_code_html, h1]
  · intro e l h1 h2
    simp [highlight_code_html, h1, h2]
  · intro e e2 h1 h2
    simp [highlight_code_html, h1, h2]
    rfl

/-- C9 counterexample: a blank (empty-string) answer to the tags or
description dialog is NOT stored as NULL.  `askstring` returns the
empty string when a blank entry is confirmed, `add_new_snippet` applies
no falsy check to tags or description, and the INSERT persists the
empty string, which `get_all_snippets` returns as an empty string, not
as None. -/
theorem C9_counterexample :
    add_new_snippet [] ⟨[], [], ""⟩ ⟨some "T", some "ruby", some "x", some "", some ""⟩
      = .ok ⟨[⟨1, "T", "x", some "ruby", some "", some ""⟩],
             ⟨[⟨some "T", some "x", some "ruby", some "", some "", some 1⟩],
              ["[RUBY] T"], ""⟩,
             some "Snippet \x27T\x27 added successfully!"⟩ ∧
    (get_all_snippets [⟨1, "T", "x", some "ruby", some "", some ""⟩]).map Snippet.tags
      = [some ""] ∧
    (some "" : Option String) ≠ none :=
  ⟨rfl, rfl, by decide⟩

/-- C9 amended: a cancelled (None) tags dialog, description dialog, or
both, does not abort the add flow - given truthy title and code answers
the new row is persisted carrying the raw tags and description answers,
the success dialog is shown, and `get_all_snippets` returns that
snippet with None (never the empty string) in each cancelled field. -/
theorem C9_cancelled_prompt_null (rows : Table) (st : AppState) (p : Prompts)
    (out : AddOutcome)
    (ht : falsy p.title = false) (hc : falsy p.code = false)
    (hcancel : p.tags = none ∨ p.description = none)
    (h : add_new_snippet rows st p = .ok out) :
    out.info.isSome = true ∧
    ∃ s2 ∈ get_all_snippets out.rows,
      s2.id = some (maxId rows + 1) ∧
      s2.tags = p.tags ∧ s2.description = p.description ∧
      (p.tags = none → s2.tags = none ∧ s2.tags ≠ some "") ∧
      (p.description = none → s2.description = none ∧ s2.description ≠ some "") := by
  obtain ⟨t, c, hpt, hpc, hrows, hinfo⟩ := add_new_snippet_success ht hc h
  refine ⟨hinfo, ⟨some t, some c, effectiveLanguage p.language, p.tags, p.description,
    some (maxId rows + 1)⟩, ?_, rfl, rfl, rfl, ?_, ?_⟩
  · rw [hrows]
    simp [get_all_snippets]
  · intro he
    exact ⟨he, by simp [he]⟩
  · intro he
    exact ⟨he, by simp [he]⟩

/-- Witness for C9 amended at a run where only the tags dialog is
cancelled: the stored tags are None while the description keeps its
answer. -/
theorem C9_cancelled_prompt_null_witness :
    ∃ out : AddOutcome,
      add_new_snippet [] ⟨[], [], ""⟩ ⟨some "T", some "ruby", some "x", none, some "d"⟩
        = .ok out ∧
      out.info.isSome = true ∧
      ∃ s2 ∈ get_all_snippets out.rows,
        s2.tags = none ∧ s2.description = some "d" := by
  have hthm := C9_cancelled_prompt_null [] ⟨[], [], ""⟩
    ⟨some "T", some "ruby", some "x", none, some "d"⟩
    ⟨[⟨1, "T", "x", some "ruby", none, some "d"⟩],
     ⟨[⟨some "T", some "x", some "ruby", none, some "d", some 1⟩], ["[RUBY] T"], ""⟩,
     some "Snippet \x27T\x27 added successfully!"⟩ rfl rfl (Or.inl rfl) rfl
  obtain ⟨s2, hmem, hid2, htg, hdsc, himp1, himp2⟩ := hthm.2
  exact ⟨_, rfl, hthm.1, ⟨s2, hmem, (himp1 rfl).1, hdsc⟩⟩

/-- C10: invoking the selection handler with no entry selected is a
silent no-op - the state (detail pane included) is unchanged and no
dialog opens - while the delete handler in the same situation opens the
modal error, asks no confirmation, and mutates nothing. -/
theorem C10_no_selection_contrast (rows : Table) (st : AppState) (confirmAnswer : Bool) :
    show_snippet_details st [] = (st, none) ∧
    delete_snippet rows st [] confirmAnswer
      = .ok ⟨rows, st, some "Please select a snippet to delete.", false⟩ :=
  ⟨rfl, rfl⟩
